import Mathlib

/-!
Shallow embedding of `src/1stFile.js` (PhotoSorter): an album-list screen
and a photo-review screen driven by pan gestures.  Asynchronous media-library
calls are modelled by explicit state passing over a `MediaLibrary` value plus
a log of the calls issued; a Boolean `ok` models whether the library
operations of one swipe succeed (on failure the first call throws and the
`catch` at lines 134-136 swallows the error).
-/

namespace PhotoSorter

/-- A photo asset as used by the review screen: an opaque identifier and a
display URI (lines 75-81, 95, 189). -/
structure Photo where
  id : String
  uri : String
deriving DecidableEq, Repr

/-- The four swipe directions dispatched by `handleSwipe` (lines 98-111). -/
inductive Direction
  | left
  | right
  | up
  | down
deriving DecidableEq, Repr

/-- The review-session state of `PhotosScreen`: the loaded photo sequence,
the current index, and the per-image loading flag (lines 67-70). -/
structure ReviewState where
  photos : List Photo
  currentIndex : Nat
  imageLoading : Bool
deriving DecidableEq, Repr

/-- The OS media library as seen through the album mutation API: a list of
albums, each a name with its ordered assets. -/
structure MediaLibrary where
  albums : List (String × List Photo)
deriving DecidableEq, Repr

/-- One media-library call issued by `handleSwipe`, recorded for the frame
conditions (lines 119, 124, 131). -/
inductive LibCall
  | getAlbum (name : String)
  | createAlbum (name : String) (seed : Photo)
  | addAssets (p : Photo) (albumName : String)
deriving DecidableEq, Repr

/-- `MediaLibrary.getAlbumAsync(name)` (line 119): look the album up by
name, `none` when absent. -/
def getAlbumAsync (lib : MediaLibrary) (name : String) : Option (String × List Photo) :=
  lib.albums.find? (fun a => a.1 == name)

/-- `MediaLibrary.createAlbumAsync(name, asset, false)` (line 124): create
the album seeded with the asset. -/
def createAlbumAsync (lib : MediaLibrary) (name : String) (seed : Photo) : MediaLibrary :=
  ⟨lib.albums ++ [(name, [seed])]⟩

/-- `MediaLibrary.addAssetsToAlbumAsync([asset], album, false)` (line 131):
append the asset to the album with that name. -/
def addAssetsToAlbumAsync (lib : MediaLibrary) (p : Photo) (name : String) : MediaLibrary :=
  ⟨lib.albums.map (fun a => if a.1 == name then (a.1, a.2 ++ [p]) else a)⟩

/-- The photo-loading effect of `PhotosScreen` (lines 73-85): the fetched
assets are reversed once and stored, the index starts at 0. -/
def loadPhotos (assets : List Photo) : ReviewState :=
  { photos := assets.reverse, currentIndex := 0, imageLoading := true }

/-- `moveToNextPhoto` (lines 87-92): advance the index only while
`currentIndex < photos.length - 1` (JS number comparison, hence the `Int`
cast), resetting the image-loading flag. -/
def moveToNextPhoto (s : ReviewState) : ReviewState :=
  if (s.currentIndex : Int) < (s.photos.length : Int) - 1 then
    { s with currentIndex := s.currentIndex + 1, imageLoading := true }
  else
    s

/-- The `switch (direction)` of `handleSwipe` (lines 98-111): the target
album name for right/up/down, `none` for left (skip). -/
def targetAlbumFor : Direction → Option String
  | Direction.right => some "likedPhotos"
  | Direction.up => some "superlikedPhotos"
  | Direction.down => some "toDelete"
  | Direction.left => none

/-- The `try`/`catch` block of `handleSwipe` (lines 118-137): look the
target album up; if absent, create it seeded with the photo, otherwise add
the photo to it.  `ok = false` models the first library call throwing, the
error being caught and swallowed at lines 134-136.  Returns the library
after the block and the calls issued. -/
def categorize (targetAlbum : String) (photo : Photo) (ok : Bool) (lib : MediaLibrary) :
    MediaLibrary × List LibCall :=
  if ok then
    match getAlbumAsync lib targetAlbum with
    | none =>
      (createAlbumAsync lib targetAlbum photo,
        [LibCall.getAlbum targetAlbum, LibCall.createAlbum targetAlbum photo])
    | some album =>
      (addAssetsToAlbumAsync lib photo album.1,
        [LibCall.getAlbum targetAlbum, LibCall.addAssets photo album.1])
  else
    (lib, [LibCall.getAlbum targetAlbum])

/-- `handleSwipe` (lines 94-139).  Returns the library after the swipe, the
review state after the swipe, and the list of library calls issued.  `left`
advances the index and returns before any library call; a missing current
photo returns early (lines 113-116); otherwise the `try`/`catch` block runs
and `moveToNextPhoto` runs after it regardless of its outcome. -/
def handleSwipe (dir : Direction) (ok : Bool) (lib : MediaLibrary) (s : ReviewState) :
    MediaLibrary × ReviewState × List LibCall :=
  match targetAlbumFor dir with
  | none => (lib, moveToNextPhoto s, [])
  | some targetAlbum =>
    match s.photos.get? s.currentIndex with
    | none => (lib, s, [])
    | some photo =>
      ((categorize targetAlbum photo ok lib).1, moveToNextPhoto s,
        (categorize targetAlbum photo ok lib).2)

/-- The pan-gesture `onEnd` classifier (lines 141-159): the dominant axis is
horizontal exactly when `|translationX| > |translationY|`; on the chosen
axis the signed displacement must exceed the 50-unit threshold. -/
def classifyGesture (translationX translationY : ℚ) : Option Direction :=
  let threshold : ℚ := 50
  if |translationX| > |translationY| then
    if translationX > threshold then some Direction.right
    else if translationX < -threshold then some Direction.left
    else none
  else
    if translationY > threshold then some Direction.down
    else if translationY < -threshold then some Direction.up
    else none

/-- A full pan release: classify the gesture, and when a direction fires run
`handleSwipe`; otherwise nothing happens. -/
def onPanEnd (tx ty : ℚ) (ok : Bool) (lib : MediaLibrary) (s : ReviewState) :
    MediaLibrary × ReviewState × List LibCall :=
  match classifyGesture tx ty with
  | none => (lib, s, [])
  | some dir => handleSwipe dir ok lib s

/-- One pan-gesture release event: the two displacements and whether the
library operations of the resulting swipe (if any) succeed. -/
structure PanEvent where
  tx : ℚ
  ty : ℚ
  ok : Bool

/-- One step of a review session: apply a pan event to the library and the
review state. -/
def sessionStep (p : MediaLibrary × ReviewState) (e : PanEvent) : MediaLibrary × ReviewState :=
  let r := onPanEnd e.tx e.ty e.ok p.1 p.2
  (r.1, r.2.1)

/-- A whole review session: load the album's assets, then process a sequence
of pan events. -/
def runSession (assets : List Photo) (lib : MediaLibrary) (events : List PanEvent) :
    MediaLibrary × ReviewState :=
  events.foldl sessionStep (lib, loadPhotos assets)

/-- The photo `p` is in some album named `name` of the library. -/
def photoInAlbum (lib : MediaLibrary) (name : String) (p : Photo) : Prop :=
  ∃ a ∈ lib.albums, a.1 = name ∧ p ∈ a.2

instance (lib : MediaLibrary) (name : String) (p : Photo) :
    Decidable (photoInAlbum lib name p) := by
  unfold photoInAlbum
  infer_instance

/-- An album as returned by `MediaLibrary.getAlbumsAsync` (line 23), before
the asset count is attached. -/
structure RawAlbum where
  id : String
  title : String
deriving DecidableEq, Repr

/-- An album annotated with its asset count (lines 24-29). -/
structure Album where
  id : String
  title : String
  assetCount : Nat
deriving DecidableEq, Repr

/-- The result of `MediaLibrary.requestPermissionsAsync` (line 16). -/
inductive PermissionStatus
  | granted
  | denied
  | undetermined
deriving DecidableEq, Repr

/-- One media-library query issued by the album-list screen. -/
inductive AlbumQuery
  | requestPermissions
  | getAlbums
  | getAssets (albumId : String)
deriving DecidableEq, Repr

/-- The rendered state of `AlbumListScreen`: its `albums` and `loading`
components (lines 11-12). -/
structure AlbumListState where
  albums : List Album
  loading : Bool
deriving DecidableEq, Repr

/-- The JS comparator `(a, b) => b.assetCount - a.assetCount` (line 30)
orders `a` before `b` exactly when it is nonpositive, i.e. when
`b.assetCount ≤ a.assetCount`. -/
def countDescLe (a b : Album) : Bool :=
  b.assetCount ≤ a.assetCount

/-- `albumsWithCount.sort((a, b) => b.assetCount - a.assetCount)` (line 30):
sort by asset count, descending. -/
def sortByAssetCountDesc (l : List Album) : List Album :=
  l.mergeSort countDescLe

/-- The album-loading effect of `AlbumListScreen` (lines 14-34): request
permission; when it is not granted, log, clear the loading flag and return
(the album list keeps its initial empty value and no further query is made);
otherwise fetch the albums, annotate each with its asset count, sort by
count descending, and render.  `counts` models the per-album
`getAssetsAsync(...).totalCount` responses.  Returns the rendered state and
the queries issued. -/
def loadAlbums (status : PermissionStatus) (libAlbums : List RawAlbum)
    (counts : String → Nat) : AlbumListState × List AlbumQuery :=
  if status ≠ PermissionStatus.granted then
    ({ albums := [], loading := false }, [AlbumQuery.requestPermissions])
  else
    let albumsWithCount := libAlbums.map (fun a => Album.mk a.id a.title (counts a.id))
    ({ albums := sortByAssetCountDesc albumsWithCount, loading := false },
      AlbumQuery.requestPermissions :: AlbumQuery.getAlbums ::
        libAlbums.map (fun a => AlbumQuery.getAssets a.id))

/-- The gesture-to-action dispatch as the specification words it: the axis
with the larger absolute displacement is chosen; if that axis's displacement
exceeds the 50-unit threshold, its sign selects the direction, mapped to the
target album — right to "likedPhotos", down to "toDelete", up to
"superlikedPhotos", left to skip (inner `none`); a gesture not exceeding
the threshold on the dominant axis maps to no action (outer `none`).  A tie
between the two axes falls to the vertical branch, as in the code. -/
def specDispatch (tx ty : ℚ) : Option (Option String) :=
  if |tx| > |ty| then
    if |tx| > 50 then some (if tx > 0 then some "likedPhotos" else none) else none
  else
    if |ty| > 50 then some (if ty > 0 then some "toDelete" else some "superlikedPhotos")
    else none

/-- A concrete sample photo used by witnesses. -/
def pA : Photo :=
  ⟨"assetA", "uriA"⟩

/-- A second concrete sample photo used by witnesses. -/
def pB : Photo :=
  ⟨"assetB", "uriB"⟩

/-! Helper lemmas shared by the claim theorems. -/

theorem moveToNextPhoto_photos (s : ReviewState) : (moveToNextPhoto s).photos = s.photos := by
  unfold moveToNextPhoto
  split <;> rfl

theorem moveToNextPhoto_index (s : ReviewState) :
    (moveToNextPhoto s).currentIndex =
      if s.currentIndex + 1 < s.photos.length then s.currentIndex + 1 else s.currentIndex := by
  have hiff : ((s.currentIndex : Int) < (s.photos.length : Int) - 1) ↔
      (s.currentIndex + 1 < s.photos.length) := by
    omega
  unfold moveToNextPhoto
  split_ifs with h1 h2 h3 <;> simp_all

theorem handleSwipe_photos (dir : Direction) (ok : Bool) (lib : MediaLibrary) (s : ReviewState) :
    ((handleSwipe dir ok lib s).2.1).photos = s.photos := by
  unfold handleSwipe
  cases targetAlbumFor dir with
  | none => exact moveToNextPhoto_photos s
  | some name =>
    cases s.photos.get? s.currentIndex with
    | none => rfl
    | some p => exact moveToNextPhoto_photos s

theorem handleSwipe_index (dir : Direction) (ok : Bool) (lib : MediaLibrary) (s : ReviewState) :
    ((handleSwipe dir ok lib s).2.1).currentIndex =
      if s.currentIndex + 1 < s.photos.length then s.currentIndex + 1 else s.currentIndex := by
  unfold handleSwipe
  cases targetAlbumFor dir with
  | none => exact moveToNextPhoto_index s
  | some name =>
    cases hp : s.photos.get? s.currentIndex with
    | none =>
      have hlen : s.photos.length ≤ s.currentIndex := List.get?_eq_none.mp hp
      have hnot : ¬ (s.currentIndex + 1 < s.photos.length) := by omega
      simp [hnot]
    | some p => exact moveToNextPhoto_index s

theorem handleSwipe_left_eq (ok : Bool) (lib : MediaLibrary) (s : ReviewState) :
    handleSwipe Direction.left ok lib s = (lib, moveToNextPhoto s, []) := rfl

theorem onPanEnd_photos (tx ty : ℚ) (ok : Bool) (lib : MediaLibrary) (s : ReviewState) :
    ((onPanEnd tx ty ok lib s).2.1).photos = s.photos := by
  unfold onPanEnd
  cases classifyGesture tx ty with
  | none => rfl
  | some dir => simpa using handleSwipe_photos dir ok lib s

theorem onPanEnd_index (tx ty : ℚ) (ok : Bool) (lib : MediaLibrary) (s : ReviewState) :
    ((onPanEnd tx ty ok lib s).2.1).currentIndex = s.currentIndex ∨
      ((onPanEnd tx ty ok lib s).2.1).currentIndex = s.currentIndex + 1 ∧
        s.currentIndex + 1 < s.photos.length := by
  unfold onPanEnd
  cases classifyGesture tx ty with
  | none => simp
  | some dir =>
    have h := handleSwipe_index dir ok lib s
    by_cases hlt : s.currentIndex + 1 < s.photos.length
    · right
      simp only [hlt, if_pos] at h
      exact ⟨h, hlt⟩
    · left
      simp only [hlt, if_neg, not_false_iff] at h
      exact h

/-- The reachable-index invariant of the review screen: the index is 0 (its
initial value) or strictly inside the loaded sequence. -/
def indexInv (s : ReviewState) : Prop :=
  s.currentIndex = 0 ∨ s.currentIndex < s.photos.length

theorem sessionStep_indexInv (p : MediaLibrary × ReviewState) (e : PanEvent)
    (h : indexInv p.2) : indexInv (sessionStep p e).2 := by
  unfold indexInv at *
  unfold sessionStep
  have hph := onPanEnd_photos e.tx e.ty e.ok p.1 p.2
  have hix := onPanEnd_index e.tx e.ty e.ok p.1 p.2
  rcases hix with hix | ⟨hix, hlt⟩
  · rcases h with h | h
    · left
      rw [hix, h]
    · right
      rw [hix, hph]
      exact h
  · right
    rw [hix, hph]
    exact hlt

theorem sessionStep_photos (p : MediaLibrary × ReviewState) (e : PanEvent) :
    (sessionStep p e).2.photos = p.2.photos :=
  onPanEnd_photos e.tx e.ty e.ok p.1 p.2

theorem foldl_sessionStep_inv (events : List PanEvent) :
    ∀ p : MediaLibrary × ReviewState, indexInv p.2 →
      indexInv (events.foldl sessionStep p).2 ∧
        (events.foldl sessionStep p).2.photos = p.2.photos := by
  induction events with
  | nil => exact fun p h => ⟨h, rfl⟩
  | cons e es ih =>
    intro p h
    have h1 := sessionStep_indexInv p e h
    have h2 := sessionStep_photos p e
    have h3 := ih (sessionStep p e) h1
    exact ⟨h3.1, h3.2.trans h2⟩

theorem runSession_inv (assets : List Photo) (lib : MediaLibrary) (events : List PanEvent) :
    indexInv (runSession assets lib events).2 ∧
      (runSession assets lib events).2.photos = assets.reverse := by
  have h := foldl_sessionStep_inv events (lib, loadPhotos assets) (Or.inl rfl)
  exact ⟨h.1, h.2⟩

theorem photoInAlbum_create (lib : MediaLibrary) (name : String) (p : Photo) :
    photoInAlbum (createAlbumAsync lib name p) name p := by
  unfold photoInAlbum createAlbumAsync
  exact ⟨(name, [p]), by simp, rfl, by simp⟩

theorem photoInAlbum_add (lib : MediaLibrary) (name : String) (alb : String × List Photo)
    (p : Photo) (h : getAlbumAsync lib name = some alb) :
    photoInAlbum (addAssetsToAlbumAsync lib p alb.1) name p := by
  unfold getAlbumAsync at h
  have hmem : alb ∈ lib.albums := List.mem_of_find?_eq_some h
  have hbeq : (alb.1 == name) = true := by
    have h1 := List.find?_some h
    simpa using h1
  have hname : alb.1 = name := by
    simpa using hbeq
  unfold photoInAlbum addAssetsToAlbumAsync
  refine ⟨(alb.1, alb.2 ++ [p]), ?_, hname, by simp⟩
  simp only [List.mem_map]
  refine ⟨alb, hmem, ?_⟩
  rw [hname]
  simp

theorem categorize_head (t : String) (p : Photo) (ok : Bool) (lib : MediaLibrary) :
    (categorize t p ok lib).2.head? = some (LibCall.getAlbum t) := by
  unfold categorize
  cases ok with
  | false => rfl
  | true =>
    cases h : getAlbumAsync lib t with
    | none => simp [h]
    | some alb => simp [h]

theorem categorize_photoInAlbum (t : String) (p : Photo) (lib : MediaLibrary) :
    photoInAlbum (categorize t p true lib).1 t p := by
  unfold categorize
  cases h : getAlbumAsync lib t with
  | none =>
    simp only [h, if_true]
    exact photoInAlbum_create lib t p
  | some alb =>
    simp only [h, if_true]
    exact photoInAlbum_add lib t alb p h

theorem handleSwipe_mutation (dir : Direction) (ok : Bool) (lib : MediaLibrary)
    (s : ReviewState) (name : String) (hdir : targetAlbumFor dir = some name)
    (hp : s.currentIndex < s.photos.length) :
    ((handleSwipe dir ok lib s).2.2).head? = some (LibCall.getAlbum name) ∧
      (ok = true →
        photoInAlbum (handleSwipe dir ok lib s).1 name (s.photos.get ⟨s.currentIndex, hp⟩)) := by
  have hget : s.photos.get? s.currentIndex = some (s.photos.get ⟨s.currentIndex, hp⟩) :=
    List.get?_eq_get hp
  unfold handleSwipe
  rw [hdir, hget]
  refine ⟨categorize_head name _ ok lib, fun hok => ?_⟩
  rw [hok]
  exact categorize_photoInAlbum name _ lib

/-! The claims. -/

/-- C1 counterexample: with a one-photo sequence at index 0 (which is the
last index), a rightward swipe whose horizontal displacement dominates and
exceeds the threshold leaves the index at 0 instead of incrementing it by
exactly 1, even though the mutation succeeds. -/
theorem C1_counterexample :
    classifyGesture 100 0 = some Direction.right ∧
    (loadPhotos [pA]).photos.length = 1 ∧
    (loadPhotos [pA]).currentIndex = 0 ∧
    (onPanEnd 100 0 true ⟨[]⟩ (loadPhotos [pA])).2.1.currentIndex ≠
      (loadPhotos [pA]).currentIndex + 1 := by
  decide

/-- C1 (amended): for every review session whose current index is in range,
a rightward swipe that classifies as `right` issues the "likedPhotos" album
lookup, on success the current photo ends up in a "likedPhotos" album
(created seeded with the photo if absent, otherwise the photo is added to
the existing album), the photo sequence is unchanged, and the index
increments by exactly 1 when the current photo is not the last one and is
unchanged on the last photo — regardless of whether the media-library
mutation succeeded or failed. -/
theorem C1_right_swipe (ok : Bool) (lib : MediaLibrary) (s : ReviewState) (tx ty : ℚ)
    (hg : classifyGesture tx ty = some Direction.right)
    (hp : s.currentIndex < s.photos.length) :
    ((onPanEnd tx ty ok lib s).2.2).head? = some (LibCall.getAlbum "likedPhotos") ∧
      (ok = true →
        photoInAlbum (onPanEnd tx ty ok lib s).1 "likedPhotos"
          (s.photos.get ⟨s.currentIndex, hp⟩)) ∧
      ((onPanEnd tx ty ok lib s).2.1).photos = s.photos ∧
      ((onPanEnd tx ty ok lib s).2.1).currentIndex =
        (if s.currentIndex + 1 < s.photos.length then s.currentIndex + 1
          else s.currentIndex) := by
  unfold onPanEnd
  rw [hg]
  have hm := handleSwipe_mutation Direction.right ok lib s "likedPhotos" rfl hp
  exact ⟨hm.1, hm.2, handleSwipe_photos Direction.right ok lib s,
    handleSwipe_index Direction.right ok lib s⟩

/-- C1 witness: the amended right-swipe theorem evaluated on a concrete
two-photo session with an empty library and a successful mutation. -/
theorem C1_witness :
    ((onPanEnd 100 0 true ⟨[]⟩ (loadPhotos [pA, pB])).2.2).head? =
        some (LibCall.getAlbum "likedPhotos") ∧
      (true = true →
        photoInAlbum (onPanEnd 100 0 true ⟨[]⟩ (loadPhotos [pA, pB])).1 "likedPhotos"
          ((loadPhotos [pA, pB]).photos.get ⟨(loadPhotos [pA, pB]).currentIndex, by decide⟩)) ∧
      ((onPanEnd 100 0 true ⟨[]⟩ (loadPhotos [pA, pB])).2.1).photos =
        (loadPhotos [pA, pB]).photos ∧
      ((onPanEnd 100 0 true ⟨[]⟩ (loadPhotos [pA, pB])).2.1).currentIndex =
        (if (loadPhotos [pA, pB]).currentIndex + 1 < (loadPhotos [pA, pB]).photos.length
          then (loadPhotos [pA, pB]).currentIndex + 1
          else (loadPhotos [pA, pB]).currentIndex) :=
  C1_right_swipe true ⟨[]⟩ (loadPhotos [pA, pB]) 100 0 (by decide) (by decide)

/-- C2 counterexample: in the state `Reviewing(0)` of a one-photo sequence
(the last reachable index), an above-threshold upward swipe does not move
the review to `Reviewing(1)`: the index stays at 0. -/
theorem C2_counterexample :
    classifyGesture 0 (-100) = some Direction.up ∧
    (loadPhotos [pA]).photos.length = 1 ∧
    (loadPhotos [pA]).currentIndex = 0 ∧
    (onPanEnd 0 (-100) true ⟨[]⟩ (loadPhotos [pA])).2.1.currentIndex ≠ 1 := by
  decide

/-- C2 (amended): on any pan release that classifies as a swipe (any of the
four directions), `Reviewing(i)` transitions to `Reviewing(i+1)` exactly
when `i < length - 1`; at the last index (and beyond) the index is
unchanged. -/
theorem C2_swipe_advances (tx ty : ℚ) (dir : Direction) (ok : Bool) (lib : MediaLibrary)
    (s : ReviewState) (hg : classifyGesture tx ty = some dir) :
    ((onPanEnd tx ty ok lib s).2.1).currentIndex =
      (if s.currentIndex + 1 < s.photos.length then s.currentIndex + 1
        else s.currentIndex) := by
  unfold onPanEnd
  rw [hg]
  exact handleSwipe_index dir ok lib s

/-- C2 witness: the amended transition theorem evaluated on a concrete
leftward swipe over a two-photo session. -/
theorem C2_witness :
    ((onPanEnd (-100) 0 true ⟨[]⟩ (loadPhotos [pA, pB])).2.1).currentIndex =
      (if (loadPhotos [pA, pB]).currentIndex + 1 < (loadPhotos [pA, pB]).photos.length
        then (loadPhotos [pA, pB]).currentIndex + 1
        else (loadPhotos [pA, pB]).currentIndex) :=
  C2_swipe_advances (-100) 0 Direction.left true ⟨[]⟩ (loadPhotos [pA, pB]) (by decide)

/-- C3 counterexample: a leftward above-threshold swipe on the last photo of
a one-photo sequence does not increment the index by 1 — it stays at 0. -/
theorem C3_counterexample :
    (handleSwipe Direction.left true ⟨[]⟩ (loadPhotos [pA])).2.1.currentIndex ≠
      (loadPhotos [pA]).currentIndex + 1 := by
  decide

/-- C3 (amended): a leftward swipe leaves the media library untouched and
issues no library call (no album lookup, creation, or asset addition), the
photo sequence is unchanged, and the index increments by 1 exactly when the
current photo is not the last one, and is unchanged otherwise. -/
theorem C3_left_swipe (ok : Bool) (lib : MediaLibrary) (s : ReviewState) :
    (handleSwipe Direction.left ok lib s).1 = lib ∧
      (handleSwipe Direction.left ok lib s).2.2 = [] ∧
      ((handleSwipe Direction.left ok lib s).2.1).photos = s.photos ∧
      ((handleSwipe Direction.left ok lib s).2.1).currentIndex =
        (if s.currentIndex + 1 < s.photos.length then s.currentIndex + 1
          else s.currentIndex) :=
  ⟨rfl, rfl, handleSwipe_photos Direction.left ok lib s,
    handleSwipe_index Direction.left ok lib s⟩

/-- C4: a pan release whose horizontal and vertical displacements are both
below the 50-unit threshold in absolute value classifies as no direction,
and the whole release leaves the library and the review state unchanged and
issues no media-library call. -/
theorem C4_below_threshold (tx ty : ℚ) (ok : Bool) (lib : MediaLibrary) (s : ReviewState)
    (hx : |tx| < 50) (hy : |ty| < 50) :
    classifyGesture tx ty = none ∧ onPanEnd tx ty ok lib s = (lib, s, []) := by
  have h1 := le_abs_self tx
  have h2 := neg_abs_le tx
  have h3 := le_abs_self ty
  have h4 := neg_abs_le ty
  have hg : classifyGesture tx ty = none := by
    simp only [classifyGesture]
    split_ifs <;> first | rfl | (exfalso; linarith)
  refine ⟨hg, ?_⟩
  unfold onPanEnd
  rw [hg]

/-- C4 witness: the below-threshold theorem evaluated on the concrete
displacement (10, -49). -/
theorem C4_witness :
    |(10 : ℚ)| < 50 ∧ |(-49 : ℚ)| < 50 ∧
      (classifyGesture 10 (-49) = none ∧
        onPanEnd 10 (-49) true ⟨[]⟩ (loadPhotos [pA]) = (⟨[]⟩, loadPhotos [pA], [])) :=
  ⟨by decide, by decide,
    C4_below_threshold 10 (-49) true ⟨[]⟩ (loadPhotos [pA]) (by decide) (by decide)⟩

/-- C5: the code's gesture classifier composed with the direction-to-album
table coincides, on every release displacement, with the dispatch as the
specification words it — dominant axis by larger absolute displacement
(ties falling to the vertical branch), the 50-unit threshold on that axis,
sign picking the direction, and right ↦ "likedPhotos", up ↦
"superlikedPhotos", down ↦ "toDelete", left ↦ skip. -/
theorem C5_dispatch (tx ty : ℚ) :
    (classifyGesture tx ty).map targetAlbumFor = specDispatch tx ty := by
  simp only [classifyGesture, specDispatch]
  rcases abs_cases tx with ⟨hx, hx0⟩ | ⟨hx, hx0⟩ <;>
    rcases abs_cases ty with ⟨hy, hy0⟩ | ⟨hy, hy0⟩ <;>
      rw [hx, hy] <;>
        split_ifs <;>
          first
            | rfl
            | (exfalso; linarith)

/-- C6: the review-session invariant — the index starts at 0 when the photo
sequence loads, and after any sequence of pan-gesture events it still
satisfies `currentIndex ≤ length` (it is a `Nat`, so it is never below 0).
-/
theorem C6_index_invariant (assets : List Photo) (lib : MediaLibrary)
    (events : List PanEvent) :
    (loadPhotos assets).currentIndex = 0 ∧
      (runSession assets lib events).2.currentIndex ≤
        (runSession assets lib events).2.photos.length := by
  refine ⟨rfl, ?_⟩
  have h := runSession_inv assets lib events
  rcases h.1 with h0 | hlt
  · rw [h0]
    exact Nat.zero_le _
  · exact Nat.le_of_lt hlt

/-- C7: for a non-empty loaded sequence, after any sequence of pan events
the index stays strictly below the sequence length, so the photo access at
the current index always yields a photo (the missing-photo early return of
`handleSwipe` is unreachable). -/
theorem C7_index_strict (assets : List Photo) (lib : MediaLibrary)
    (events : List PanEvent) (h : assets ≠ []) :
    (runSession assets lib events).2.currentIndex <
        (runSession assets lib events).2.photos.length ∧
      ((runSession assets lib events).2.photos.get?
        (runSession assets lib events).2.currentIndex).isSome := by
  have hs := runSession_inv assets lib events
  have hlen : 0 < (runSession assets lib events).2.photos.length := by
    rw [hs.2]
    simpa using List.length_pos.mpr h
  have hlt : (runSession assets lib events).2.currentIndex <
      (runSession assets lib events).2.photos.length := by
    rcases hs.1 with h0 | hlt
    · rw [h0]
      exact hlen
    · exact hlt
  refine ⟨hlt, ?_⟩
  rw [List.get?_eq_get hlt]
  rfl

/-- C7 witness: the strict-bound theorem evaluated on a concrete one-photo
session after a successful right swipe and a failed down swipe. -/
theorem C7_witness :
    ([pA] : List Photo) ≠ [] ∧
      ((runSession [pA] ⟨[]⟩ [⟨100, 0, true⟩, ⟨0, 100, false⟩]).2.currentIndex <
          (runSession [pA] ⟨[]⟩ [⟨100, 0, true⟩, ⟨0, 100, false⟩]).2.photos.length ∧
        ((runSession [pA] ⟨[]⟩ [⟨100, 0, true⟩, ⟨0, 100, false⟩]).2.photos.get?
          (runSession [pA] ⟨[]⟩ [⟨100, 0, true⟩, ⟨0, 100, false⟩]).2.currentIndex).isSome) :=
  ⟨by decide, C7_index_strict [pA] ⟨[]⟩ [⟨100, 0, true⟩, ⟨0, 100, false⟩] (by decide)⟩

/-- C8: on the last photo of a non-empty sequence, a right, up, or down
swipe (any direction with a target album) still issues the album lookup and
the create-or-add mutation for that photo while the whole review state stays
unchanged; applying the swipe again therefore submits the same photo to the
target album again. -/
theorem C8_last_photo (dir : Direction) (lib : MediaLibrary) (s : ReviewState)
    (name : String) (hdir : targetAlbumFor dir = some name) (hne : s.photos ≠ [])
    (hlast : s.currentIndex = s.photos.length - 1) :
    (handleSwipe dir true lib s).2.1 = s ∧
      ((handleSwipe dir true lib s).2.2).head? = some (LibCall.getAlbum name) ∧
      photoInAlbum (handleSwipe dir true lib s).1 name (s.photos.getLast hne) ∧
      ((handleSwipe dir true (handleSwipe dir true lib s).1
          ((handleSwipe dir true lib s).2.1)).2.2).head? =
        some (LibCall.getAlbum name) := by
  have hlen : 0 < s.photos.length := List.length_pos.mpr hne
  have hp : s.currentIndex < s.photos.length := by omega
  have hget : s.photos.get? s.currentIndex = some (s.photos.get ⟨s.currentIndex, hp⟩) :=
    List.get?_eq_get hp
  have hmut := handleSwipe_mutation dir true lib s name hdir hp
  have hmv : moveToNextPhoto s = s := by
    have hno : ¬ ((s.currentIndex : Int) < (s.photos.length : Int) - 1) := by omega
    unfold moveToNextPhoto
    rw [if_neg hno]
  have hstate : (handleSwipe dir true lib s).2.1 = s := by
    unfold handleSwipe
    rw [hdir, hget]
    exact hmv
  have hgl : s.photos.getLast hne = s.photos.get ⟨s.currentIndex, hp⟩ := by
    simp [List.getLast_eq_getElem, List.get_eq_getElem, hlast]
  refine ⟨hstate, hmut.1, ?_, ?_⟩
  · rw [hgl]
    exact hmut.2 rfl
  · rw [hstate]
    exact (handleSwipe_mutation dir true (handleSwipe dir true lib s).1 s name hdir hp).1

/-- C8 witness: the last-photo theorem evaluated on a concrete one-photo
session with an initially empty library and a right swipe. -/
theorem C8_witness :
    (handleSwipe Direction.right true ⟨[]⟩ (loadPhotos [pA])).2.1 = loadPhotos [pA] ∧
      ((handleSwipe Direction.right true ⟨[]⟩ (loadPhotos [pA])).2.2).head? =
        some (LibCall.getAlbum "likedPhotos") ∧
      photoInAlbum (handleSwipe Direction.right true ⟨[]⟩ (loadPhotos [pA])).1 "likedPhotos"
        ((loadPhotos [pA]).photos.getLast (by decide)) ∧
      ((handleSwipe Direction.right true
          (handleSwipe Direction.right true ⟨[]⟩ (loadPhotos [pA])).1
          ((handleSwipe Direction.right true ⟨[]⟩ (loadPhotos [pA])).2.1)).2.2).head? =
        some (LibCall.getAlbum "likedPhotos") :=
  C8_last_photo Direction.right ⟨[]⟩ (loadPhotos [pA]) "likedPhotos" rfl (by decide)
    (by decide)

/-- C9: when permission is granted, the album list the screen renders is a
permutation of the annotated album list returned by the library, ordered so
that asset counts are non-increasing from first to last. -/
theorem C9_sorted_albums (libAlbums : List RawAlbum) (counts : String → Nat) :
    ((loadAlbums PermissionStatus.granted libAlbums counts).1.albums).Perm
        (libAlbums.map (fun a => Album.mk a.id a.title (counts a.id))) ∧
      ((loadAlbums PermissionStatus.granted libAlbums counts).1.albums).Pairwise
        (fun a b => b.assetCount ≤ a.assetCount) := by
  have hred : (loadAlbums PermissionStatus.granted libAlbums counts).1.albums =
      sortByAssetCountDesc (libAlbums.map (fun a => Album.mk a.id a.title (counts a.id))) := by
    simp [loadAlbums]
  rw [hred]
  constructor
  · exact List.mergeSort_perm _ countDescLe
  · have hs : (List.mergeSort
        (libAlbums.map (fun a => Album.mk a.id a.title (counts a.id)))
        countDescLe).Pairwise (fun a b => countDescLe a b = true) :=
      List.sorted_mergeSort
        (fun a b c h1 h2 => by
          simp only [countDescLe, decide_eq_true_eq] at h1 h2 ⊢
          omega)
        (fun a b => by
          simp only [countDescLe, Bool.or_eq_true, decide_eq_true_eq]
          omega)
        (libAlbums.map (fun a => Album.mk a.id a.title (counts a.id)))
    exact hs.imp (fun h => by simpa [countDescLe] using h)

/-- C10: when the permission request does not come back granted, album
loading halts — the loading flag is cleared, the album list stays empty, and
no query beyond the permission request itself is issued (no retry, no
further call). -/
theorem C10_permission_denied (status : PermissionStatus) (libAlbums : List RawAlbum)
    (counts : String → Nat) (h : status ≠ PermissionStatus.granted) :
    loadAlbums status libAlbums counts =
      ({ albums := [], loading := false }, [AlbumQuery.requestPermissions]) := by
  unfold loadAlbums
  rw [if_pos h]

/-- C10 witness: the permission-denied theorem evaluated at a concrete
denied status with a non-empty album library. -/
theorem C10_witness :
    PermissionStatus.denied ≠ PermissionStatus.granted ∧
      loadAlbums PermissionStatus.denied [⟨"alb1", "Camera"⟩] (fun _ => 3) =
        ({ albums := [], loading := false }, [AlbumQuery.requestPermissions]) :=
  ⟨by decide,
    C10_permission_denied PermissionStatus.denied [⟨"alb1", "Camera"⟩] (fun _ => 3)
      (by decide)⟩

end PhotoSorter
